import Mathlib

/-!
Shallow embedding of the attendance verification gate pipeline
(`backend/main.py`, endpoint `verify_attendance`) and its gates
(`backend/core/gates.py`, `backend/core/utils.py`), with the external
collaborators (image decoding, face detection, landmark extraction,
embedding computation, stored-encoding database) abstracted as oracle
inputs, exactly at the points where the source consumes their outputs.

Numeric conventions:
* EAR values, Laplacian variances, timestamps and embedding coordinates
  are exact rationals.
* The geographic distance (`haversine`) lives in the reals, since the
  source formula is built from trigonometric functions.
* `np.linalg.norm` (Euclidean distance, gates.py line 469) is embedded
  through its square (`normSq`): every comparison the source performs on
  distances (running minimum against initial value 10.0, final threshold
  0.50) is performed here on squared values (initial value 100, threshold
  1/4).  Squaring is strictly monotone on nonnegative reals, so the
  branch taken at every comparison is identical to the source's.
-/

namespace Attendance

/-- The five states of the blink state machine (gates.py line 214). -/
inductive BlinkState
  | waitingForOpen
  | eyesOpen
  | eyesClosing
  | eyesClosed
  | blinkComplete
  deriving DecidableEq, Repr

/-- One user's blink-challenge session: the value stored in the
`blink_tracker` dict (gates.py lines 195-202). -/
structure Tracker where
  earHistory : List ℚ
  timestamps : List ℚ
  state : BlinkState
  closedFrameCount : ℕ
  blinkDetected : Bool
  startTime : ℚ
  deriving DecidableEq, Repr

/-- A fresh session, as created at gates.py lines 195-202. -/
def freshTracker (now : ℚ) : Tracker :=
  ⟨[], [], .waitingForOpen, 0, false, now⟩

/-- Append to a `deque(maxlen=30)`: the oldest entries are dropped once
the length would exceed 30. -/
def dequeAppend (xs : List ℚ) (x : ℚ) : List ℚ :=
  let ys := xs ++ [x]
  if 30 < ys.length then ys.drop (ys.length - 30) else ys

/-- The `blink_tracker` module dict (gates.py line 31), keyed by user id. -/
abbrev TrackerMap := List (String × Tracker)

def lookupTracker : TrackerMap → String → Option Tracker
  | [], _ => none
  | (k, t) :: rest, u => if k = u then some t else lookupTracker rest u

/-- Python dict assignment `blink_tracker[user_id] = tracker`. -/
def insertTracker : TrackerMap → String → Tracker → TrackerMap
  | [], u, t => [(u, t)]
  | (k, t0) :: rest, u, t =>
    if k = u then (u, t) :: rest else (k, t0) :: insertTracker rest u t

/-- Python `del blink_tracker[user_id]` guarded by membership
(gates.py lines 382-390, `reset_blink_challenge`). -/
def eraseTracker : TrackerMap → String → TrackerMap
  | [], _ => []
  | (k, t) :: rest, u =>
    if k = u then eraseTracker rest u else (k, t) :: eraseTracker rest u

/-- The distinct return messages of `gate_liveness` (gates.py lines
142-271).  The interpolated EAR / elapsed-time figures of the f-strings
are carried separately in `LiveResult`. -/
inductive LiveMsg
  | noFaceDetected        -- line 156
  | singleFrameOk         -- line 186 (no user id supplied)
  | eyesNotDetected       -- line 188
  | eyesDetectedOpen      -- line 220
  | waitingOpen           -- line 222
  | blinkEyesClosing      -- line 229
  | timeoutNoBlink        -- line 232
  | pleaseBlink           -- line 234
  | eyesClosedNow         -- line 244
  | blinkInProgress       -- line 246
  | falseBlink            -- line 251
  | blinkSuccess          -- line 259
  | eyesClosedTooLong     -- line 262
  | waitingReopen         -- line 264
  | alreadyVerified       -- line 268
  deriving DecidableEq, Repr

/-- The `(valid, message, ear)` triple returned by `gate_liveness`. -/
structure LiveResult where
  valid : Bool
  msg : LiveMsg
  ear : ℚ
  deriving DecidableEq, Repr

/-- One step of the blink state machine on an existing session
(gates.py lines 191, 206-271): record the sample into the rolling
history and evaluate exactly one transition. -/
def blinkStep (tr : Tracker) (ear now earThreshold timeoutSeconds : ℚ)
    (minBlinkFrames : ℕ) : Tracker × LiveResult :=
  let elapsed := now - tr.startTime
  let tr1 := { tr with
    earHistory := dequeAppend tr.earHistory ear
    timestamps := dequeAppend tr.timestamps now }
  match tr.state with
  | .waitingForOpen =>
    if earThreshold < ear then
      ({ tr1 with state := .eyesOpen }, ⟨true, .eyesDetectedOpen, ear⟩)
    else
      (tr1, ⟨true, .waitingOpen, ear⟩)
  | .eyesOpen =>
    if ear < earThreshold then
      ({ tr1 with state := .eyesClosing, closedFrameCount := 1 },
        ⟨true, .blinkEyesClosing, ear⟩)
    else if timeoutSeconds < elapsed then
      (tr1, ⟨false, .timeoutNoBlink, ear⟩)
    else
      (tr1, ⟨true, .pleaseBlink, ear⟩)
  | .eyesClosing =>
    if ear < earThreshold then
      let c := tr.closedFrameCount + 1
      if minBlinkFrames ≤ c then
        ({ tr1 with state := .eyesClosed, closedFrameCount := c },
          ⟨true, .eyesClosedNow, ear⟩)
      else
        ({ tr1 with closedFrameCount := c }, ⟨true, .blinkInProgress, ear⟩)
    else
      ({ tr1 with state := .eyesOpen, closedFrameCount := 0 },
        ⟨true, .falseBlink, ear⟩)
  | .eyesClosed =>
    if earThreshold < ear then
      ({ tr1 with state := .blinkComplete, blinkDetected := true },
        ⟨true, .blinkSuccess, ear⟩)
    else if timeoutSeconds < elapsed then
      (tr1, ⟨false, .eyesClosedTooLong, ear⟩)
    else
      (tr1, ⟨true, .waitingReopen, ear⟩)
  | .blinkComplete =>
    (tr1, ⟨true, .alreadyVerified, ear⟩)

/-- `gate_liveness` (gates.py lines 120-271) after the external face
work: dlib availability and model loading are assumed (lines 142-147),
face detection and EAR computation are collaborator outputs passed in
as `earOpt` (`none` models "no face detected", lines 155-156). -/
def gate_liveness (m : TrackerMap) (earOpt : Option ℚ)
    (userId : Option String) (earThreshold timeoutSeconds : ℚ)
    (minBlinkFrames : ℕ) (resetChallenge : Bool) (now : ℚ) :
    TrackerMap × LiveResult :=
  match earOpt with
  | none => (m, ⟨false, .noFaceDetected, 0⟩)
  | some ear =>
    match userId with
    | none =>
      -- single-frame mode, lines 183-188
      if mkRat 1 10 < ear then (m, ⟨true, .singleFrameOk, ear⟩)
      else (m, ⟨false, .eyesNotDetected, ear⟩)
    | some uid =>
      -- multi-frame blink detection mode, lines 190-271
      let m1 :=
        if resetChallenge || (lookupTracker m uid).isNone then
          insertTracker m uid (freshTracker now)
        else m
      let tr := (lookupTracker m1 uid).getD (freshTracker now)
      let s := blinkStep tr ear now earThreshold timeoutSeconds minBlinkFrames
      (insertTracker m1 uid s.1, s.2)

/-- `check_blink_complete` (gates.py lines 366-379). -/
def check_blink_complete (m : TrackerMap) (userId : String) : Bool :=
  match lookupTracker m userId with
  | none => false
  | some t => t.blinkDetected

/-- `reset_blink_challenge` (gates.py lines 382-390). -/
def reset_blink_challenge (m : TrackerMap) (userId : String) : TrackerMap :=
  eraseTracker m userId

/-- Drive `gate_liveness` over a sequence of frames for one user, all
carrying the same timestamp `now`, collecting the session state left
after each frame. -/
def runStream (m : TrackerMap) (uid : String) (thr tmo : ℚ) (mb : ℕ)
    (now : ℚ) : List ℚ → TrackerMap × List BlinkState
  | [] => (m, [])
  | e :: es =>
    let s := gate_liveness m (some e) (some uid) thr tmo mb false now
    let st := ((lookupTracker s.1 uid).getD (freshTracker now)).state
    let r := runStream s.1 uid thr tmo mb now es
    (r.1, st :: r.2)

-- ===========================================================================
-- Streaming-mode liveness section of the endpoint (main.py lines 267-311)
-- ===========================================================================

/-- Outcome of the streaming liveness section: an early rejection, an
in-progress continue response, or fall-through to gate 4.  The
in-progress response additionally reports a `get_blink_status` payload
(main.py lines 305-308) which carries no decision-relevant data and is
not modelled. -/
inductive StreamOut
  | failResp (msg : LiveMsg) (ear : ℚ)
  | inProgress (msg : LiveMsg)
  | complete
  deriving DecidableEq, Repr

/-- The single-frame streaming branch of `verify_attendance`
(main.py lines 267-311).  `AttendanceRequest` (models.py) declares no
`challenge_in_progress` field and pydantic drops undeclared fields, so
`hasattr(request, 'challenge_in_progress')` is `False` on every request
and `is_first_frame` (line 269) is always `True`. -/
def streamingLiveness (m : TrackerMap) (uid : String) (earOpt : Option ℚ)
    (now : ℚ) : StreamOut × TrackerMap :=
  let isFirstFrame := true
  let m0 := if isFirstFrame then reset_blink_challenge m uid else m
  -- main.py lines 274-280: ear_threshold=0.21, timeout_seconds=3.0,
  -- min_blink_frames=1
  let s := gate_liveness m0 earOpt (some uid) (mkRat 21 100) 3 1 false now
  let blinkDone := check_blink_complete s.1 uid
  if blinkDone = false then
    if s.2.valid = false then
      (.failResp s.2.msg s.2.ear, reset_blink_challenge s.1 uid)
    else
      (.inProgress s.2.msg, s.1)
  else
    (.complete, s.1)

/-- Drive `streamingLiveness` over a sequence of streaming requests for
one user (one EAR per request) and collect each request's outcome. -/
def runVerifyStream (m : TrackerMap) (uid : String) (now : ℚ) :
    List ℚ → TrackerMap × List StreamOut
  | [] => (m, [])
  | e :: es =>
    let s := streamingLiveness m uid (some e) now
    let r := runVerifyStream s.2 uid now es
    (r.1, s.1 :: r.2)

-- ===========================================================================
-- Gate 2: texture (gates.py lines 86-113)
-- ===========================================================================

inductive TexMsg
  | tooLow      -- line 109, "Texture variance too low (Blurry/Printed photo)"
  | tooHigh     -- line 111, "Texture variance too high (Screen/Digital display)"
  | textureOk   -- line 113, "Texture verified"
  deriving DecidableEq, Repr

structure TexResult where
  valid : Bool
  msg : TexMsg
  variance : ℚ
  deriving DecidableEq, Repr

/-- `gate_texture` (gates.py lines 86-113).  The grayscale conversion and
Laplacian-variance computation are performed by the cv2 collaborator;
its output is the `variance` input here. -/
def gate_texture (variance : ℚ) : TexResult :=
  if variance < 20 then ⟨false, .tooLow, variance⟩
  else if 250 < variance then ⟨false, .tooHigh, variance⟩
  else ⟨true, .textureOk, variance⟩

-- ===========================================================================
-- Gate 4: face recognition (gates.py lines 428-477)
-- ===========================================================================

inductive RecogMsg
  | noFace          -- line 453 (also covers the encoding-error return, 461)
  | notRegistered   -- line 464, "No registered face for user"
  | faceVerified    -- line 475
  | faceMismatch    -- line 477
  deriving DecidableEq, Repr

/-- `(valid, message, distance)` of `gate_recognition`, with the distance
represented by its square (see the file header). -/
structure RecogResult where
  valid : Bool
  msg : RecogMsg
  distSq : ℚ
  deriving DecidableEq, Repr

/-- Squared Euclidean distance between two embedding vectors: the square
of `np.linalg.norm(face_encoding - np.array(known_enc))` (gates.py
line 469). -/
def normSq (a b : List ℚ) : ℚ :=
  ((a.zipWith (fun x y => x - y) b).map (fun d => d * d)).sum

/-- The running-minimum loop of gates.py lines 467-471, on squared
distances: `min_dist = 10.0` becomes the initial value `100 = 10²`. -/
def minDistSqFold (q : List ℚ) (refs : List (List ℚ)) : ℚ :=
  refs.foldl (fun m r => if normSq q r < m then normSq q r else m) 100

/-- `gate_recognition` (gates.py lines 428-477) after the external face
work: face detection plus descriptor computation are collaborator
outputs passed in as `faceEncoding` (`none` models "no face detected" at
lines 452-453 and the descriptor exception at lines 460-461, both of
which return distance 1.0 = squared distance 1).  The threshold
comparison `min_dist <= 0.50` (line 474) becomes `≤ 1/4` on squares. -/
def gate_recognition (faceEncoding : Option (List ℚ))
    (refs : List (List ℚ)) : RecogResult :=
  match faceEncoding with
  | none => ⟨false, .noFace, 1⟩
  | some q =>
    if refs.isEmpty then ⟨false, .notRegistered, 1⟩
    else
      let md := minDistSqFold q refs
      if md ≤ mkRat 1 4 then ⟨true, .faceVerified, md⟩
      else ⟨false, .faceMismatch, md⟩

-- ===========================================================================
-- Batch liveness (gates.py lines 274-363)
-- ===========================================================================

inductive BatchMsg
  | insufficientFrames      -- line 289
  | noFaceInFrame (i : ℕ)   -- line 306, index is 1-based as in the f-string
  | noValidBlink            -- line 332
  | blinkDetectedOk         -- line 337
  deriving DecidableEq, Repr

inductive BatchReason
  | insufficientFrames      -- line 345
  | insufficientDrop        -- line 362
  deriving DecidableEq, Repr

/-- The `details` dict built by `_analyze_blink_pattern` (gates.py lines
343-363): the short-sequence branch returns only a reason, the analysis
branch returns the statistics plus a reason on failure. -/
inductive BatchDetails
  | short
  | stats (blinkCount : ℕ) (avgEar minEar maxEar earDrop : ℚ)
      (reason : Option BatchReason)
  deriving DecidableEq, Repr

/-- Python `max` over a (nonempty) list. -/
def pyMax (l : List ℚ) : ℚ := l.foldl max (l.headD 0)

/-- Python `min` over a (nonempty) list. -/
def pyMin (l : List ℚ) : ℚ := l.foldl min (l.headD 0)

/-- `_analyze_blink_pattern` (gates.py lines 343-363). -/
def analyzeBlinkPattern (earValues : List ℚ) (minDrop : ℚ) :
    Bool × BatchDetails :=
  if earValues.length < 3 then (false, .short)
  else
    let maxEar := pyMax earValues
    let minEar := pyMin earValues
    let drop := maxEar - minEar
    let avg := earValues.sum / (earValues.length : ℚ)
    if minDrop ≤ drop then
      (true, .stats 1 avg minEar maxEar drop none)
    else
      (false, .stats 0 avg minEar maxEar drop (some .insufficientDrop))

/-- The per-frame loop of `gate_liveness_batch` (gates.py lines
294-324): walk the frames in order and stop at the first frame with no
detected face, reporting its 1-based index; otherwise return the EAR
sequence. -/
def collectEars : List (Option ℚ) → ℕ → Sum ℕ (List ℚ)
  | [], _ => .inr []
  | none :: _, i => .inl (i + 1)
  | some e :: rest, i =>
    match collectEars rest (i + 1) with
    | .inl j => .inl j
    | .inr es => .inr (e :: es)

structure BatchResult where
  valid : Bool
  msg : BatchMsg
  earHistory : Option (List ℚ)
  details : Option BatchDetails
  deriving DecidableEq, Repr

/-- `gate_liveness_batch` (gates.py lines 274-340).  Per-frame face
detection and EAR computation are collaborator outputs (`none` = no face
in that frame).  The `earThreshold` and `minBlinkFrames` parameters are
received but, as in the source, never used: `_analyze_blink_pattern` is
called with its default `min_drop=0.06` only (lines 327-329). -/
def gate_liveness_batch (frames : List (Option ℚ)) (earThreshold : ℚ)
    (minBlinkFrames : ℕ) : BatchResult :=
  -- `if not frames or len(frames) < 3` (line 288)
  if frames.length < 3 then ⟨false, .insufficientFrames, none, none⟩
  else
    match collectEars frames 0 with
    | .inl i => ⟨false, .noFaceInFrame i, none, none⟩
    | .inr ears =>
      let a := analyzeBlinkPattern ears (mkRat 6 100)
      if a.1 = false then ⟨false, .noValidBlink, some ears, some a.2⟩
      else ⟨true, .blinkDetectedOk, some ears, some a.2⟩

-- ===========================================================================
-- Gate 1: location (utils.py lines 7-20, gates.py lines 62-79)
-- ===========================================================================

/-- Python `math.radians`. -/
noncomputable def radians (x : ℝ) : ℝ := x * Real.pi / 180

/-- Python `math.atan2` on exact reals (signed-zero distinctions do not
exist on ℝ and are irrelevant to the arguments `haversine` produces). -/
noncomputable def atan2 (y x : ℝ) : ℝ :=
  if 0 < x then Real.arctan (y / x)
  else if x < 0 then
    if 0 ≤ y then Real.arctan (y / x) + Real.pi
    else Real.arctan (y / x) - Real.pi
  else
    if 0 < y then Real.pi / 2
    else if y < 0 then -(Real.pi / 2)
    else 0

/-- `haversine` (utils.py lines 7-20). -/
noncomputable def haversine (lat1 lon1 lat2 lon2 : ℝ) : ℝ :=
  let R : ℝ := 6371000
  let phi1 := radians lat1
  let phi2 := radians lat2
  let dphi := radians (lat2 - lat1)
  let dlambda := radians (lon2 - lon1)
  let a := Real.sin (dphi / 2) ^ 2 +
    Real.cos phi1 * Real.cos phi2 * Real.sin (dlambda / 2) ^ 2
  let c := 2 * atan2 (Real.sqrt a) (Real.sqrt (1 - a))
  R * c

/-- The message of `gate_location`: the failure f-string (gates.py line
78) states the measured distance and the threshold, carried here as the
payload of `exceeds`. -/
inductive LocMsg
  | exceeds (dist thresholdM : ℝ)
  | locationOk

structure LocResult where
  valid : Bool
  msg : LocMsg
  dist : ℝ

/-- `gate_location` (gates.py lines 62-79).  The Python defaults are
`ref_lat=10.5200`, `ref_lon=76.2100`, `threshold_m=5000`; the pipeline
call site (main.py line 171) supplies none of them, so those defaults
are what the endpoint uses. -/
noncomputable def gate_location (lat lon refLat refLon thresholdM : ℝ) :
    LocResult :=
  let dist := haversine lat lon refLat refLon
  if thresholdM < dist then ⟨false, .exceeds dist thresholdM, dist⟩
  else ⟨true, .locationOk, dist⟩

-- ===========================================================================
-- The endpoint pipeline (main.py lines 164-394)
-- ===========================================================================

/-- Decode/face oracle for one challenge frame of the batch branch. -/
structure BatchFrame where
  decodeOk : Bool
  ear : Option ℚ
  deriving DecidableEq, Repr

/-- Collaborator-oracle view of one verification request: the request
fields the pipeline reads, plus the outputs the external collaborators
(image decoder, face detector / landmark / descriptor models, stored
encodings database) produce for this request. -/
structure Env where
  userId : String
  latitude : ℝ
  longitude : ℝ
  decodeOk : Bool                        -- decode_image on request.frame
  textureVariance : ℚ                    -- cv2 Laplacian variance
  streamEar : Option ℚ                   -- face/EAR of the primary frame
  batchFrames : Option (List BatchFrame) -- request.blink_challenge_frames
  queryEmbedding : Option (List ℚ)       -- face descriptor of the frame
  userEncodings : List (List ℚ)          -- USER_DB.get(user_id, [])
  now : ℚ

/-- The external collaborators of spec interest, recorded in the order
the pipeline invokes them. -/
inductive Collab
  | decodeImage
  | textureAnalysis
  | blinkTracking
  | faceMatching
  deriving DecidableEq, Repr

inductive RejReason
  | location (m : LocMsg)
  | texture (m : TexMsg)
  | frameDecodeFailed (i : ℕ)     -- main.py line 233, 1-based frame index
  | batchLiveness (m : BatchMsg)
  | liveness (m : LiveMsg)
  | challengeInProgress (m : LiveMsg)
  | userNotRegistered (uid : String)
  | faceRejected (m : RecogMsg)

/-- The `debug_info` payloads of the endpoint's responses, keeping the
numeric fields; purely textual members (tips, suggestions, the
`expected_range` constant, the `blink_status` dump) are dropped. -/
inductive DebugInfo
  | locationDebug (distanceMeters thresholdMeters : ℝ)  -- main.py 181-184
  | textureDebug (variance : ℚ)                         -- main.py 211-214
  | batchDebug (earHistory : Option (List ℚ)) (details : Option BatchDetails)
  | earDebug (ear : ℚ) (threshold : ℚ)                  -- main.py 294
  | progressDebug                                       -- main.py 305-308
  | notRegisteredDebug                                  -- main.py 336-344
  | mismatchDebug (distSq : ℚ)                          -- main.py 362-367
  | successDebug (distSq : ℚ) (locationDistance : ℝ)    -- main.py 389-393

/-- The response fields of `AttendanceResponse` the claims speak about.
`confidence`, `processing_time` and `timestamp` are wall-clock or
formatting data with no decision content and are omitted. -/
structure Resp where
  verified : Bool
  gatePassed : ℕ
  rejectionReason : Option RejReason
  debugInfo : Option DebugInfo

/-- A request either produces an `AttendanceResponse` or raises
`HTTPException` (undecodable primary image, main.py lines 190-196). -/
inductive PipeOut
  | httpError (code : ℕ)
  | response (r : Resp)

/-- The sequential decode loop over the challenge frames (main.py lines
223-236): 1-based index of the first frame that fails to decode. -/
def firstBadDecode : List BatchFrame → ℕ → Option ℕ
  | [], _ => none
  | f :: rest, i =>
    if f.decodeOk = false then some (i + 1) else firstBadDecode rest (i + 1)

/-- Gate 4 section of the endpoint (main.py lines 313-394). -/
noncomputable def gate4 (env : Env) (m : TrackerMap) (loc : LocResult)
    (trace : List Collab) : PipeOut × TrackerMap × List Collab :=
  if env.userEncodings.isEmpty then
    -- main.py lines 324-344: user not found in database
    (.response ⟨false, 3, some (.userNotRegistered env.userId),
      some .notRegisteredDebug⟩, m, trace)
  else
    let recog := gate_recognition env.queryEmbedding env.userEncodings
    if recog.valid = false then
      -- main.py lines 351-368
      (.response ⟨false, 3, some (.faceRejected recog.msg),
        some (.mismatchDebug recog.distSq)⟩,
        reset_blink_challenge m env.userId, trace ++ [.faceMatching])
    else
      -- main.py lines 370-394: all four gates passed
      (.response ⟨true, 4, none, some (.successDebug recog.distSq loc.dist)⟩,
        reset_blink_challenge m env.userId, trace ++ [.faceMatching])

/-- Streaming liveness branch of the endpoint followed by gate 4
(main.py lines 267-311 then 313-394). -/
noncomputable def streamingBranch (env : Env) (m : TrackerMap)
    (loc : LocResult) (trace : List Collab) :
    PipeOut × TrackerMap × List Collab :=
  let s := streamingLiveness m env.userId env.streamEar env.now
  match s.1 with
  | .failResp msg ear =>
    (.response ⟨false, 2, some (.liveness msg),
      some (.earDebug ear (mkRat 21 100))⟩, s.2, trace ++ [.blinkTracking])
  | .inProgress msg =>
    (.response ⟨false, 2, some (.challengeInProgress msg),
      some .progressDebug⟩, s.2, trace ++ [.blinkTracking])
  | .complete => gate4 env s.2 loc (trace ++ [.blinkTracking])

/-- Batch liveness branch of the endpoint (main.py lines 220-265)
followed by gate 4. -/
noncomputable def batchBranch (env : Env) (m : TrackerMap)
    (loc : LocResult) (bfs : List BatchFrame) (trace : List Collab) :
    PipeOut × TrackerMap × List Collab :=
  match firstBadDecode bfs 0 with
  | some i =>
    (.response ⟨false, 2, some (.frameDecodeFailed i), none⟩, m,
      trace ++ [.decodeImage])
  | none =>
    -- main.py lines 238-242: ear_threshold=0.21, min_blink_frames=1
    let b := gate_liveness_batch (bfs.map BatchFrame.ear) (mkRat 21 100) 1
    if b.valid = false then
      (.response ⟨false, 2, some (.batchLiveness b.msg),
        some (.batchDebug b.earHistory b.details)⟩, m,
        trace ++ [.decodeImage, .blinkTracking])
    else
      gate4 env m loc (trace ++ [.decodeImage, .blinkTracking])

/-- `verify_attendance` (main.py lines 164-394) as a function of the
request/oracle environment and the blink-session map.  The returned
list records which external collaborators the pipeline invoked, in
order. -/
noncomputable def verify_attendance (env : Env) (m : TrackerMap) :
    PipeOut × TrackerMap × List Collab :=
  let loc := gate_location env.latitude env.longitude 10.52 76.21 5000
  if loc.valid = false then
    -- main.py lines 173-185: note debug threshold_meters is the literal
    -- 4000, not the 5000 the gate compared against
    (.response ⟨false, 0, some (.location loc.msg),
      some (.locationDebug loc.dist 4000)⟩, m, [])
  else if env.decodeOk = false then
    (.httpError 400, m, [.decodeImage])
  else
    let tex := gate_texture env.textureVariance
    if tex.valid = false then
      (.response ⟨false, 1, some (.texture tex.msg),
        some (.textureDebug tex.variance)⟩, m,
        [.decodeImage, .textureAnalysis])
    else
      -- main.py line 220: batch mode iff blink_challenge_frames is
      -- present and truthy (a nonempty list)
      match env.batchFrames with
      | some bfs =>
        if bfs.isEmpty then
          streamingBranch env m loc [.decodeImage, .textureAnalysis]
        else
          batchBranch env m loc bfs [.decodeImage, .textureAnalysis]
      | none => streamingBranch env m loc [.decodeImage, .textureAnalysis]

/-- A live session sitting in EYES_CLOSING. -/
def trClosing : Tracker := ⟨[], [], .eyesClosing, 1, false, 0⟩

/-- A live session sitting in EYES_OPEN. -/
def trOpen : Tracker := ⟨[], [], .eyesOpen, 0, false, 0⟩

/-- A concrete request environment used by concrete evaluations: it
claims user "u" from the point antipodal to the campus reference, with
benign collaborator oracles. -/
def env0 : Env :=
  ⟨"u", -10.52, 256.21, true, 100, some (mkRat 3 10), none, some [0],
    [[0]], 0⟩

/-- A concrete nonempty blink-session map (a live session for another
user "v"). -/
def m0 : TrackerMap := [("v", freshTracker 0)]

-- ===========================================================================
-- Helper lemmas
-- ===========================================================================

theorem lookupTracker_erase (m : TrackerMap) (u : String) :
    lookupTracker (eraseTracker m u) u = none := by
  induction m with
  | nil => rfl
  | cons kv rest ih =>
    obtain ⟨k, t⟩ := kv
    by_cases h : k = u
    · simpa [eraseTracker, h] using ih
    · simp [eraseTracker, lookupTracker, h, ih]

theorem lookupTracker_insert (m : TrackerMap) (u : String) (t : Tracker) :
    lookupTracker (insertTracker m u t) u = some t := by
  induction m with
  | nil => simp [insertTracker, lookupTracker]
  | cons kv rest ih =>
    obtain ⟨k, t0⟩ := kv
    by_cases h : k = u
    · simp [insertTracker, h, lookupTracker]
    · simp [insertTracker, lookupTracker, h, ih]

-- ===========================================================================
-- Claim theorems
-- ===========================================================================

/-- Claim C3: starting from a fresh session with EAR threshold 0.21 and
min-consecutive-frames 2, the EAR sequence [0.30, 0.30, 0.10, 0.10,
0.30] (all within the timeout) drives the blink state machine from
WAITING_FOR_OPEN through EYES_OPEN, EYES_CLOSING, EYES_CLOSED and
BLINK_COMPLETE in that order, and leaves the blink-achieved flag
(`check_blink_complete`) true. -/
theorem claim_C3_sample_sequence :
    (freshTracker 0).state = .waitingForOpen ∧
    (runStream [] "u" (mkRat 21 100) 3 2 0
      [mkRat 3 10, mkRat 3 10, mkRat 1 10, mkRat 1 10, mkRat 3 10]).2 =
      [.eyesOpen, .eyesOpen, .eyesClosing, .eyesClosed, .blinkComplete] ∧
    check_blink_complete (runStream [] "u" (mkRat 21 100) 3 2 0
      [mkRat 3 10, mkRat 3 10, mkRat 1 10, mkRat 1 10, mkRat 3 10]).1 "u" =
      true := by
  refine ⟨rfl, ?_, ?_⟩ <;>
    norm_num [runStream, gate_liveness, blinkStep, dequeAppend, lookupTracker,
      insertTracker, freshTracker, check_blink_complete]

/-- Claim C7: the texture gate passes iff the Laplacian variance lies in
the inclusive band [20, 250]; both boundary values pass and values
strictly outside fail. -/
theorem claim_C7_texture_band (v : ℚ) :
    (gate_texture v).valid = true ↔ (20 ≤ v ∧ v ≤ 250) := by
  unfold gate_texture
  split_ifs with h1 h2
  · simp only [Bool.false_eq_true, false_iff, not_and]
    intro h
    linarith
  · simp only [Bool.false_eq_true, false_iff, not_and]
    intro h
    linarith
  · simp only [true_iff]
    exact ⟨not_lt.mp h1, not_lt.mp h2⟩

/-- Claim C2 (amended): in streaming mode, for a call with a detected
face and an active session, the verdict is failing iff the elapsed time
strictly exceeds the timeout AND the session is in EYES_OPEN with
EAR ≥ threshold or in EYES_CLOSED with EAR ≤ threshold.  In particular
the EYES_CLOSING state never yields a failing verdict (the source has
no timeout branch there), and a frame that triggers a transition passes
even when timed out. -/
theorem claim_C2_fail_iff_timeout_open_or_closed (m : TrackerMap)
    (uid : String) (tr : Tracker) (ear now thr tmo : ℚ) (mb : ℕ)
    (h : lookupTracker m uid = some tr) :
    (gate_liveness m (some ear) (some uid) thr tmo mb false now).2.valid
        = false ↔
      (tmo < now - tr.startTime ∧
        ((tr.state = .eyesOpen ∧ thr ≤ ear) ∨
          (tr.state = .eyesClosed ∧ ear ≤ thr))) := by
  unfold gate_liveness
  simp only [h, Option.isNone_some, Bool.or_false, Bool.false_eq_true,
    if_false, Option.getD_some]
  unfold blinkStep
  cases hs : tr.state <;> simp only [hs]
  · split_ifs <;> simp
  · split_ifs with h1 h2
    · refine iff_of_false (by simp) ?_
      rintro ⟨-, ⟨-, hle⟩ | ⟨hc, -⟩⟩
      · linarith
      · exact hc
    · exact iff_of_true rfl ⟨h2, Or.inl ⟨trivial, not_lt.mp h1⟩⟩
    · refine iff_of_false (by simp) ?_
      rintro ⟨ht, -⟩
      exact h2 ht
  · split_ifs <;> simp
  · split_ifs with h1 h2
    · refine iff_of_false (by simp) ?_
      rintro ⟨-, ⟨hc, -⟩ | ⟨-, hle⟩⟩
      · exact hc
      · linarith
    · exact iff_of_true rfl ⟨h2, Or.inr ⟨trivial, not_lt.mp h1⟩⟩
    · refine iff_of_false (by simp) ?_
      rintro ⟨ht, -⟩
      exact h2 ht
  · simp

/-- Claim C2 (counterexample): with an active session in EYES_CLOSING
and elapsed time 10 s exceeding the 3 s timeout, the call still returns
a passing verdict, contradicting the claim that a timed-out frame in
EYES_CLOSING fails. -/
theorem claim_C2_counterexample :
    (gate_liveness [("u", trClosing)] (some (mkRat 1 10)) (some "u")
      (mkRat 21 100) 3 1 false 10).2.valid = true ∧
    (3 : ℚ) < 10 - trClosing.startTime ∧
    trClosing.state = .eyesClosing := by
  refine ⟨?_, by norm_num [trClosing], rfl⟩
  norm_num [gate_liveness, blinkStep, trClosing, lookupTracker, insertTracker,
    dequeAppend]

/-- Witness for the amended C2 theorem: a concrete timed-out EYES_OPEN
frame with EAR above threshold fails. -/
theorem claim_C2_fail_iff_timeout_open_or_closed_witness :
    (gate_liveness [("u", trOpen)] (some (mkRat 3 10)) (some "u")
      (mkRat 21 100) 3 1 false 10).2.valid = false :=
  (claim_C2_fail_iff_timeout_open_or_closed [("u", trOpen)] "u" trOpen
    (mkRat 3 10) 10 (mkRat 21 100) 3 1 rfl).mpr
    (by norm_num [trOpen])

/-- Claim C4 (amended): in EYES_OPEN the session transitions to
EYES_CLOSING with consecutive-closed count 1 iff EAR is strictly below
the threshold; a frame with EAR exactly equal to the threshold does not
transition. -/
theorem claim_C4_closing_iff_strictly_below (tr : Tracker)
    (ear now thr tmo : ℚ) (mb : ℕ) (h : tr.state = .eyesOpen) :
    ((blinkStep tr ear now thr tmo mb).1.state = .eyesClosing ∧
      (blinkStep tr ear now thr tmo mb).1.closedFrameCount = 1) ↔
      ear < thr := by
  unfold blinkStep
  simp only [h]
  split_ifs with h1 h2
  · simpa using h1
  · simp only [h]
    exact iff_of_false (fun hx => hx.1) h1
  · simp only [h]
    exact iff_of_false (fun hx => hx.1) h1

/-- Claim C4 (counterexample): in EYES_OPEN, a frame with EAR exactly
equal to the threshold (so EAR ≤ threshold holds) leaves the session in
EYES_OPEN with count 0 instead of transitioning to EYES_CLOSING with
count 1. -/
theorem claim_C4_counterexample :
    mkRat 21 100 ≤ mkRat 21 100 ∧
    trOpen.state = .eyesOpen ∧
    (blinkStep trOpen (mkRat 21 100) 1 (mkRat 21 100) 3 2).1.state
      = .eyesOpen ∧
    (blinkStep trOpen (mkRat 21 100) 1 (mkRat 21 100) 3 2).1.closedFrameCount
      = 0 := by
  refine ⟨le_refl _, rfl, ?_, ?_⟩
  · norm_num [blinkStep, trOpen, dequeAppend]
  · norm_num [blinkStep, trOpen, dequeAppend]

/-- Witness for the amended C4 theorem: a concrete EAR strictly below
the threshold does transition to EYES_CLOSING with count 1. -/
theorem claim_C4_closing_iff_strictly_below_witness :
    (blinkStep trOpen (mkRat 1 10) 1 (mkRat 21 100) 3 2).1.state
      = .eyesClosing ∧
    (blinkStep trOpen (mkRat 1 10) 1 (mkRat 21 100) 3 2).1.closedFrameCount
      = 1 :=
  (claim_C4_closing_iff_strictly_below trOpen (mkRat 1 10) 1 (mkRat 21 100)
    3 2 rfl).mpr (by norm_num)

theorem dequeAppend_nil (x : ℚ) : dequeAppend [] x = [x] := by
  norm_num [dequeAppend]

/-- Stepping `gate_liveness` for a user with no stored session creates a
fresh one, returns a passing verdict, and leaves the blink-achieved
flag false. -/
theorem gate_liveness_fresh_valid (m : TrackerMap) (uid : String)
    (ear now thr tmo : ℚ) (mb : ℕ) (h : lookupTracker m uid = none) :
    (gate_liveness m (some ear) (some uid) thr tmo mb false now).2.valid
      = true := by
  unfold gate_liveness
  simp only [h, Option.isNone_none, Bool.or_true, if_true,
    lookupTracker_insert, Option.getD_some]
  unfold blinkStep freshTracker
  by_cases hc : thr < ear <;> simp [hc]

/-- Companion to `gate_liveness_fresh_valid`: the post-step session of a
previously absent user has `blink_detected = false`. -/
theorem gate_liveness_fresh_check (m : TrackerMap) (uid : String)
    (ear now thr tmo : ℚ) (mb : ℕ) (h : lookupTracker m uid = none) :
    check_blink_complete
      (gate_liveness m (some ear) (some uid) thr tmo mb false now).1 uid
      = false := by
  unfold gate_liveness check_blink_complete
  simp only [h, Option.isNone_none, Bool.or_true, if_true,
    lookupTracker_insert, Option.getD_some]
  unfold blinkStep freshTracker
  by_cases hc : thr < ear <;>
    simp [hc, lookupTracker_insert, dequeAppend_nil]

/-- Claim C1 (code-bug evidence): because `AttendanceRequest` has no
`challenge_in_progress` attribute, every streaming request resets the
subject's blink session before stepping it, so the streaming section
can never report the challenge complete and the blink-achieved flag is
always false afterwards — for any prior session map.  In particular the
should-succeed open–closed–closed–open EAR sequence
[0.30, 0.10, 0.10, 0.30] (all within the timeout) never resolves the
challenge across requests. -/
theorem claim_C1_streaming_never_resolves :
    (∀ (m : TrackerMap) (uid : String) (earOpt : Option ℚ) (now : ℚ),
      (streamingLiveness m uid earOpt now).1 ≠ .complete ∧
      check_blink_complete (streamingLiveness m uid earOpt now).2 uid
        = false) ∧
    ((∀ o ∈ (runVerifyStream [] "u" 0
        [mkRat 3 10, mkRat 1 10, mkRat 1 10, mkRat 3 10]).2,
        o ≠ StreamOut.complete) ∧
      check_blink_complete (runVerifyStream [] "u" 0
        [mkRat 3 10, mkRat 1 10, mkRat 1 10, mkRat 3 10]).1 "u" = false) := by
  constructor
  · intro m uid earOpt now
    cases earOpt with
    | none =>
      constructor <;>
        simp [streamingLiveness, gate_liveness, reset_blink_challenge,
          check_blink_complete, lookupTracker_erase]
    | some ear =>
      have k1 := gate_liveness_fresh_valid (eraseTracker m uid) uid ear now
        (mkRat 21 100) 3 1 (lookupTracker_erase m uid)
      have k2 := gate_liveness_fresh_check (eraseTracker m uid) uid ear now
        (mkRat 21 100) 3 1 (lookupTracker_erase m uid)
      constructor <;>
        · simp only [streamingLiveness, reset_blink_challenge, if_true]
          rw [k2]
          simp [k1, k2]
  · constructor
    · norm_num [runVerifyStream, streamingLiveness, gate_liveness, blinkStep,
        reset_blink_challenge, check_blink_complete, eraseTracker,
        lookupTracker, insertTracker, freshTracker, dequeAppend]
      decide
    · norm_num [runVerifyStream, streamingLiveness, gate_liveness, blinkStep,
        reset_blink_challenge, check_blink_complete, eraseTracker,
        lookupTracker, insertTracker, freshTracker, dequeAppend]

/-- Witness for C1: the no-resolution property instantiated at a
concrete streaming request against a concrete session map. -/
theorem claim_C1_streaming_never_resolves_witness :
    (streamingLiveness m0 "u" (some (mkRat 3 10)) 0).1 ≠ .complete ∧
    check_blink_complete
      (streamingLiveness m0 "u" (some (mkRat 3 10)) 0).2 "u" = false :=
  claim_C1_streaming_never_resolves.1 m0 "u" (some (mkRat 3 10)) 0

/-- Claim C6 helper: the running-minimum fold is at most `c` iff the
initial value is, or some reference's squared distance is. -/
theorem minDistSqFold_le_iff (q : List ℚ) (refs : List (List ℚ))
    (a c : ℚ) :
    refs.foldl (fun m r => if normSq q r < m then normSq q r else m) a ≤ c ↔
      a ≤ c ∨ ∃ r ∈ refs, normSq q r ≤ c := by
  induction refs generalizing a with
  | nil => simp
  | cons r rest ih =>
    simp only [List.foldl_cons, List.mem_cons]
    rw [ih]
    by_cases h : normSq q r < a
    · rw [if_pos h]
      constructor
      · rintro (h1 | ⟨r2, hm, h2⟩)
        · exact Or.inr ⟨r, Or.inl rfl, h1⟩
        · exact Or.inr ⟨r2, Or.inr hm, h2⟩
      · rintro (h1 | ⟨r2, (rfl | hm), h2⟩)
        · exact Or.inl (by linarith)
        · exact Or.inl h2
        · exact Or.inr ⟨r2, hm, h2⟩
    · rw [if_neg h]
      constructor
      · rintro (h1 | ⟨r2, hm, h2⟩)
        · exact Or.inl h1
        · exact Or.inr ⟨r2, Or.inr hm, h2⟩
      · rintro (h1 | ⟨r2, (rfl | hm), h2⟩)
        · exact Or.inl h1
        · exact Or.inl (by linarith [not_lt.mp h])
        · exact Or.inr ⟨r2, hm, h2⟩

/-- Claim C6: the identity gate fails with the "not registered" reason
on an empty reference set, and otherwise passes iff some reference's
squared Euclidean distance to the query embedding is ≤ (0.50)² = 1/4 —
that is, iff the minimum Euclidean distance is ≤ 0.50 (boundary value
included). -/
theorem claim_C6_identity_gate (q : List ℚ) (refs : List (List ℚ)) :
    (refs = [] →
      gate_recognition (some q) refs = ⟨false, .notRegistered, 1⟩) ∧
    (refs ≠ [] →
      ((gate_recognition (some q) refs).valid = true ↔
        ∃ r ∈ refs, normSq q r ≤ mkRat 1 4)) := by
  constructor
  · rintro rfl
    rfl
  · intro hne
    simp only [gate_recognition, minDistSqFold]
    rw [if_neg (by simpa [List.isEmpty_iff] using hne)]
    have h100 : ¬ (100 : ℚ) ≤ mkRat 1 4 := by norm_num [Rat.mkRat_eq_div]
    split_ifs with hmin
    · simp only [true_iff]
      rcases (minDistSqFold_le_iff q refs 100 (mkRat 1 4)).mp hmin with
        h | h
      · exact absurd h h100
      · exact h
    · simp only [Bool.false_eq_true, false_iff]
      intro hex
      exact hmin ((minDistSqFold_le_iff q refs 100 (mkRat 1 4)).mpr
        (Or.inr hex))

/-- Witness for C6: the empty set fails with "not registered", and a
singleton reference at distance 0 passes. -/
theorem claim_C6_identity_gate_witness :
    gate_recognition (some [0]) [] = ⟨false, .notRegistered, 1⟩ ∧
    (gate_recognition (some [0]) [[0]]).valid = true :=
  ⟨(claim_C6_identity_gate [0] []).1 rfl,
    ((claim_C6_identity_gate [0] [[0]]).2 (by simp)).mpr
      ⟨[0], by simp, by norm_num [normSq, Rat.mkRat_eq_div]⟩⟩

/-- Claim C9 helper: on a batch where every frame yields a face, the
per-frame loop returns exactly the EAR sequence. -/
theorem collectEars_map_some (l : List ℚ) :
    ∀ i, collectEars (l.map some) i = .inr l := by
  induction l with
  | nil => intro i; rfl
  | cons e es ih => intro i; simp [collectEars, ih]

/-- Claim C9: on a batch in which a face and EAR value is obtained for
every frame, batch liveness declares a blink iff max EAR − min EAR is
≥ 0.06 (given at least 3 frames), fewer than 3 frames always fail, and
the two sample sequences behave as specified. -/
theorem claim_C9_batch_blink (ears : List ℚ) :
    ((3 ≤ ears.length →
      ((gate_liveness_batch (ears.map some) (mkRat 21 100) 1).valid = true ↔
        mkRat 6 100 ≤ pyMax ears - pyMin ears)) ∧
     (ears.length < 3 →
      (gate_liveness_batch (ears.map some) (mkRat 21 100) 1).valid
        = false)) ∧
    (gate_liveness_batch ([mkRat 32 100, mkRat 31 100, mkRat 30 100].map some)
      (mkRat 21 100) 1).valid = false ∧
    (gate_liveness_batch ([mkRat 32 100, mkRat 10 100, mkRat 31 100].map some)
      (mkRat 21 100) 1).valid = true := by
  refine ⟨⟨?_, ?_⟩, ?_, ?_⟩
  · intro h3
    simp only [gate_liveness_batch, List.length_map]
    rw [if_neg (by omega), collectEars_map_some ears 0]
    simp only [analyzeBlinkPattern]
    rw [if_neg (show ¬ (ears.length < 3) from by omega)]
    split_ifs with hd <;> simp_all
  · intro h3
    simp only [gate_liveness_batch, List.length_map]
    rw [if_pos h3]
  · norm_num [gate_liveness_batch, collectEars, analyzeBlinkPattern,
      pyMax, pyMin]
  · norm_num [gate_liveness_batch, collectEars, analyzeBlinkPattern,
      pyMax, pyMin]

/-- Witness for C9: the general equivalence and the short-batch failure
instantiated at concrete batches. -/
theorem claim_C9_batch_blink_witness :
    ((gate_liveness_batch
        ([mkRat 32 100, mkRat 10 100, mkRat 31 100].map some)
        (mkRat 21 100) 1).valid = true ↔
      mkRat 6 100 ≤ pyMax [mkRat 32 100, mkRat 10 100, mkRat 31 100] -
        pyMin [mkRat 32 100, mkRat 10 100, mkRat 31 100]) ∧
    (gate_liveness_batch ([mkRat 1 10].map some) (mkRat 21 100) 1).valid
      = false :=
  ⟨(claim_C9_batch_blink [mkRat 32 100, mkRat 10 100, mkRat 31 100]).1.1
      (by decide),
    (claim_C9_batch_blink [mkRat 1 10]).1.2 (by decide)⟩

theorem atan2_one_zero : atan2 1 0 = Real.pi / 2 := by
  unfold atan2
  norm_num

/-- The haversine distance from the point antipodal in longitude and
opposite in latitude to the campus reference evaluates exactly to
half the Earth's circumference, 6 371 000 π metres. -/
theorem haversine_antipodal :
    haversine (-10.52) 256.21 10.52 76.21 = 6371000 * Real.pi := by
  simp only [haversine, radians]
  have e1 : ((10.52 : ℝ) - -10.52) * Real.pi / 180 / 2
      = 10.52 * Real.pi / 180 := by ring
  have e2 : ((76.21 : ℝ) - 256.21) * Real.pi / 180 / 2 = -(Real.pi / 2) := by
    ring
  have e3 : (-10.52 : ℝ) * Real.pi / 180 = -(10.52 * Real.pi / 180) := by ring
  rw [e1, e2, e3, Real.cos_neg, Real.sin_neg, Real.sin_pi_div_two]
  have e4 : Real.sin (10.52 * Real.pi / 180) ^ 2 +
      Real.cos (10.52 * Real.pi / 180) * Real.cos (10.52 * Real.pi / 180) *
        (-1 : ℝ) ^ 2 = 1 := by
    have h := Real.sin_sq_add_cos_sq (10.52 * Real.pi / 180)
    nlinarith [h]
  rw [e4]
  norm_num [Real.sqrt_one, Real.sqrt_zero, atan2_one_zero]
  ring

theorem threshold_lt_antipodal : (5000 : ℝ) < 6371000 * Real.pi := by
  nlinarith [Real.pi_gt_three]

/-- The location gate evaluated at the antipodal point: it rejects,
reporting the measured distance and the 5000 m threshold it compared
against. -/
theorem gate_location_antipodal :
    gate_location (-10.52) 256.21 10.52 76.21 5000 =
      ⟨false, .exceeds (6371000 * Real.pi) 5000, 6371000 * Real.pi⟩ := by
  simp only [gate_location, haversine_antipodal]
  rw [if_pos threshold_lt_antipodal]

/-- Claim C8: the location gate passes iff the haversine distance to the
reference point is ≤ the threshold (a distance exactly equal to the
threshold passes), and on failure its message reports the measured
distance and the threshold. -/
theorem claim_C8_location_boundary (lat lon refLat refLon thr : ℝ) :
    ((gate_location lat lon refLat refLon thr).valid = true ↔
      haversine lat lon refLat refLon ≤ thr) ∧
    ((gate_location lat lon refLat refLon thr).valid = false →
      (gate_location lat lon refLat refLon thr).msg =
        .exceeds (haversine lat lon refLat refLon) thr) := by
  simp only [gate_location]
  by_cases h : thr < haversine lat lon refLat refLon
  · rw [if_pos h]
    exact ⟨iff_of_false (by simp) (fun hle => absurd h (not_lt.mpr hle)),
      fun _ => rfl⟩
  · rw [if_neg h]
    exact ⟨iff_of_true rfl (not_lt.mp h), fun hx => absurd hx (by simp)⟩

/-- Witness for C8: the gate's failure message at the antipodal point
carries the measured distance and the threshold. -/
theorem claim_C8_location_boundary_witness :
    (gate_location (-10.52) 256.21 10.52 76.21 5000).msg =
      .exceeds (haversine (-10.52) 256.21 10.52 76.21) 5000 :=
  (claim_C8_location_boundary (-10.52) 256.21 10.52 76.21 5000).2
    (by rw [gate_location_antipodal])

/-- Claim C5: a request whose location gate fails terminates the
pipeline with that gate's outcome as the result (gate index 0, the
gate's own reason, its distance in the debug payload); no collaborator
is invoked (the trace is empty, so image decoding, texture analysis,
blink tracking and recognition are all unreached) and the blink-session
map is returned unchanged. -/
theorem claim_C5_location_short_circuit (env : Env) (m : TrackerMap)
    (h : (gate_location env.latitude env.longitude 10.52 76.21 5000).valid
      = false) :
    verify_attendance env m =
      (.response ⟨false, 0,
        some (.location
          (gate_location env.latitude env.longitude 10.52 76.21 5000).msg),
        some (.locationDebug
          (gate_location env.latitude env.longitude 10.52 76.21 5000).dist
          4000)⟩,
       m, []) := by
  simp only [verify_attendance]
  rw [if_pos h]

/-- Witness for C5: a concrete request from the antipodal point, with a
nonempty session map, short-circuits at the location gate. -/
theorem claim_C5_location_short_circuit_witness :
    verify_attendance env0 m0 =
      (.response ⟨false, 0,
        some (.location
          (gate_location env0.latitude env0.longitude 10.52 76.21 5000).msg),
        some (.locationDebug
          (gate_location env0.latitude env0.longitude 10.52 76.21 5000).dist
          4000)⟩,
       m0, []) :=
  claim_C5_location_short_circuit env0 m0
    (show (gate_location (-10.52) 256.21 10.52 76.21 5000).valid = false from
      by rw [gate_location_antipodal])

/-- Claim C10 (code-bug evidence): on a location rejection the response
reports `threshold_meters = 4000` in its debug payload while the gate
actually compared the distance against 5000 (and says so in the
rejection reason of the same response); 4000 is strictly below 5000. -/
theorem claim_C10_debug_threshold_mismatch :
    (verify_attendance env0 m0).1 =
      .response ⟨false, 0,
        some (.location (.exceeds (6371000 * Real.pi) 5000)),
        some (.locationDebug (6371000 * Real.pi) 4000)⟩ ∧
    (4000 : ℝ) < 5000 := by
  constructor
  · have h : gate_location env0.latitude env0.longitude 10.52 76.21 5000 =
        ⟨false, .exceeds (6371000 * Real.pi) 5000, 6371000 * Real.pi⟩ :=
      gate_location_antipodal
    simp only [verify_attendance, h, if_true]
  · norm_num

end Attendance
